import Mathlib

/-!
Shallow embedding of the chess rule engine in `src/Chess.py` (class `Board`).

Modelling conventions:
* A square is a pair `(file, rank)` with `file ∈ 0..7` standing for files
  `a..h` and `rank ∈ 0..7` standing for the printed rank digits `1..8`
  (so the Python square string `"e2"` is `(4, 1)`).  All of the source's
  arithmetic is on `ranks.find(file)` (already 0-based) and on the rank
  digit; shifting the digit down by one preserves every comparison and
  every difference the source computes.
* A button's `image` is modelled as `Option Piece`: `none` is the shared
  `blank.png` image, `some ⟨c, k⟩` is the shared image of piece kind `k`
  of color `c` (the source compares shared image references, which are in
  bijection with `(color, kind)`).
* Python `abs(x - y)` on two board coordinates is `fdiff`, computed as
  `max - min` on `Nat`, which agrees with the integer absolute difference.
* A Python `KeyError`/`TypeError` (the source indexes `self.squares` with
  an off-board key during a skewed diagonal scan, or subscripts `None`
  when no king is found) is modelled by returning `none` from an
  `Option`-valued function; `some b` is a normal return of `b`.
-/

inductive Color where
  | white
  | black
deriving DecidableEq, Repr

inductive PieceKind where
  | king
  | queen
  | rook
  | bishop
  | knight
  | pawn
deriving DecidableEq, Repr

structure Piece where
  color : Color
  kind : PieceKind
deriving DecidableEq, Repr

abbrev Square := Nat × Nat

abbrev Board := Square → Option Piece

/-- The 64 squares in the iteration (= insertion) order of the source's
`self.squares` dict: `set_squares` inserts `a1, b1, …, h1, a2, …, h8`
(outer loop over ranks, inner loop over files). -/
def squaresList : List Square :=
  (List.range 8).flatMap (fun r => (List.range 8).map (fun f => (f, r)))

/-- Python `range(a+1, b)`: the numbers strictly between `a` and `b`
(ascending), empty when `b ≤ a + 1`. -/
def stepsBetween (a b : Nat) : List Nat :=
  (List.range (b - (a + 1))).map (fun i => a + 1 + i)

/-- The list `[1, 2, …, n]`, the successive step counts of a diagonal walk. -/
def steps1 (n : Nat) : List Nat :=
  (List.range n).map (fun i => i + 1)

/-- Python `abs(x - y)` for two `Nat` coordinates. -/
def fdiff (a b : Nat) : Nat := max a b - min a b

/-- The straight-line (rook/queen) part of `Board.clear_path`: `true` iff
some square strictly between `sq1` and `sq2` on a shared file (checked
first) or shared rank is occupied.  When the two squares share neither,
the source's straight-line scan does nothing. -/
def straightBlocked (board : Board) (sq1 sq2 : Square) : Bool :=
  if sq1.1 = sq2.1 then
    !((stepsBetween (min sq1.2 sq2.2) (max sq1.2 sq2.2)).all
        (fun i => (board (sq1.1, i)).isNone))
  else if sq1.2 = sq2.2 then
    !((stepsBetween (min sq1.1 sq2.1) (max sq1.1 sq2.1)).all
        (fun i => (board (i, sq1.2)).isNone))
  else false

/-- The squares visited by the diagonal (bishop/queen) part of
`Board.clear_path`, in visit order.  The file of every visited square is
strictly between the endpoint files and hence on the board, but the rank
is stepped blindly (`y1 += 1` / `y1 -= 1` in the source) and can leave
the board when the two endpoints are not actually on a common diagonal,
so ranks are tracked in `Int`. -/
def diagSquares (x1 : Nat) (y1 : Int) (x2 : Nat) (y2 : Int) : List (Nat × Int) :=
  if y1 < y2 then
    if x1 < x2 then (steps1 (x2 - x1 - 1)).map (fun k => (x1 + k, y1 + (k : Int)))
    else if x2 < x1 then (steps1 (x1 - x2 - 1)).map (fun k => (x1 - k, y1 + (k : Int)))
    else []
  else if y2 < y1 then
    if x1 < x2 then (steps1 (x2 - x1 - 1)).map (fun k => (x1 + k, y1 - (k : Int)))
    else if x2 < x1 then (steps1 (x1 - x2 - 1)).map (fun k => (x1 - k, y1 - (k : Int)))
    else []
  else []

/-- Walk the squares of a diagonal scan in order.  A rank outside `0..7`
means the source indexes `self.squares` with a nonexistent key and raises
`KeyError` (`none`); an occupied square makes `clear_path` return `False`
immediately (so later squares — including off-board ones — are never
touched); reaching the end of the walk yields `true`. -/
def walkSquares (board : Board) : List (Nat × Int) → Option Bool
  | [] => some true
  | (x, y) :: rest =>
    if 0 ≤ y ∧ y < 8 then
      match board (x, y.toNat) with
      | some _ => some false
      | none => walkSquares board rest
    else none

/-- The string argument of `Board.clear_path` (`"rook"`, `"bishop"`,
`"queen"`). -/
inductive SlideKind where
  | rook
  | bishop
  | queen
deriving DecidableEq, Repr

/-- `Board.clear_path`: straight-line scan for rook/queen, then diagonal
scan for bishop/queen, `True` if neither scan found a blocker.  `none`
models the `KeyError` raised when the diagonal scan steps off the board. -/
def clear_path (board : Board) (sq1 sq2 : Square) (piece : SlideKind) : Option Bool :=
  if (piece = SlideKind.rook ∨ piece = SlideKind.queen) ∧
      straightBlocked board sq1 sq2 = true then
    some false
  else if piece = SlideKind.bishop ∨ piece = SlideKind.queen then
    walkSquares board (diagSquares sq1.1 (sq1.2 : Int) sq2.1 (sq2.2 : Int))
  else some true

/-- The white-pawn clauses of `Board.allowed_piece_move` (starting-rank
block, then single push, then diagonal capture), in source order.  The
digit comparisons `sq1[1] == "2"`, `int(sq2[1]) == 3/4` become
`rank = 1/2/3` in 0-based ranks; `int(sq2[1]) == int(sq1[1]) + 1` becomes
`sq2.2 = sq1.2 + 1`. -/
def white_pawn_move (board : Board) (sq1 sq2 : Square) : Bool :=
  (sq1.2 == 1 && (sq2.2 == 2 || sq2.2 == 3) && sq1.1 == sq2.1 &&
      (board sq2).isNone &&
      (if sq2.2 == 3 then (board (sq1.1, 2)).isNone else true))
  || (sq2.2 == sq1.2 + 1 && sq1.1 == sq2.1 && (board sq2).isNone)
  || (sq2.2 == sq1.2 + 1 && fdiff sq1.1 sq2.1 == 1 &&
      (board sq2).any (fun p => p.color == Color.black))

/-- The black-pawn clauses of `Board.allowed_piece_move`, the mirror image
of the white ones; `int(sq2[1]) == int(sq1[1]) - 1` becomes
`sq2.2 + 1 = sq1.2` (the Python comparison is on integers, so it can
never hold for a pawn on the first rank, matching the `Nat` form). -/
def black_pawn_move (board : Board) (sq1 sq2 : Square) : Bool :=
  (sq1.2 == 6 && (sq2.2 == 5 || sq2.2 == 4) && sq1.1 == sq2.1 &&
      (board sq2).isNone &&
      (if sq2.2 == 4 then (board (sq1.1, 5)).isNone else true))
  || (sq2.2 + 1 == sq1.2 && sq1.1 == sq2.1 && (board sq2).isNone)
  || (sq2.2 + 1 == sq1.2 && fdiff sq1.1 sq2.1 == 1 &&
      (board sq2).any (fun p => p.color == Color.white))

/-- `Board.allowed_piece_move`: `False` when the source square is blank,
otherwise exactly one piece-image clause applies (the shared images are
distinct), each a faithful transcription of the source.  `Board.castle`
always returns `False` in the source, so the king clause is only the
one-step pattern.  `none` models a `KeyError` escaping from `clear_path`. -/
def allowed_piece_move (board : Board) (sq1 sq2 : Square) : Option Bool :=
  match board sq1 with
  | none => some false
  | some p =>
    match p.kind with
    | PieceKind.bishop =>
      (clear_path board sq1 sq2 SlideKind.bishop).map
        (fun c => c && (fdiff sq1.2 sq2.2 == fdiff sq1.1 sq2.1))
    | PieceKind.knight =>
      some ((fdiff sq1.2 sq2.2 == 2 && fdiff sq1.1 sq2.1 == 1) ||
            (fdiff sq1.2 sq2.2 == 1 && fdiff sq1.1 sq2.1 == 2))
    | PieceKind.king =>
      some (decide (fdiff sq1.2 sq2.2 < 2) && decide (fdiff sq1.1 sq2.1 < 2))
    | PieceKind.pawn =>
      some (match p.color with
        | Color.white => white_pawn_move board sq1 sq2
        | Color.black => black_pawn_move board sq1 sq2)
    | PieceKind.queen =>
      (clear_path board sq1 sq2 SlideKind.queen).map
        (fun c => c && (sq1.2 == sq2.2 || sq1.1 == sq2.1 ||
                        fdiff sq1.2 sq2.2 == fdiff sq1.1 sq2.1))
    | PieceKind.rook =>
      some ((sq1.2 == sq2.2 || sq1.1 == sq2.1) &&
            !(straightBlocked board sq1 sq2))

/-- `Board.friendly_fire`: `True` iff the currently stored
`self.piece_color` is `"white"`/`"black"` and the destination square holds
a piece of that same color.  When `self.piece_color` is `None` (which the
source leaves behind after a rejected second click) it is always `False`. -/
def friendly_fire (board : Board) (pieceColor : Option Color) (sq2 : Square) : Bool :=
  match pieceColor, board sq2 with
  | some Color.white, some p => p.color == Color.white
  | some Color.black, some p => p.color == Color.black
  | _, _ => false

/-- `Board.find_king`: the first square in dict order whose image is the
given king image, `None` when there is none. -/
def find_king (board : Board) (kingPiece : Piece) : Option Square :=
  squaresList.find? (fun sq => board sq == some kingPiece)

/-- The scan loop of `Board.in_check` over the given square list: skip
squares not holding an enemy piece; at an enemy square evaluate
`allowed_piece_move` toward the king square, returning the attacker on
`True`, continuing on `False`, and propagating a crash (`none`) on
`KeyError`.  When `find_king` returned `None`, the first enemy square's
`allowed_piece_move` subscripts `None` and raises (`none`); with no enemy
piece at all the loop just finishes. -/
def check_scan (board : Board) (c : Color) (kingSq : Option Square) :
    List Square → Option (Option Square)
  | [] => some none
  | sq :: rest =>
    match board sq with
    | some p =>
      if p.color = c then check_scan board c kingSq rest
      else
        match kingSq with
        | none => none
        | some ks =>
          match allowed_piece_move board sq ks with
          | none => none
          | some true => some (some sq)
          | some false => check_scan board c kingSq rest
    | none => check_scan board c kingSq rest

/-- `Board.in_check`: `False` outright when `self.piece_color` is `None`;
otherwise locate the king of that color and scan every enemy square with
the same `allowed_piece_move` engine.  `none` models an uncaught
exception during the scan. -/
def in_check (board : Board) (pieceColor : Option Color) : Option Bool :=
  match pieceColor with
  | none => some false
  | some c =>
    match check_scan board c (find_king board ⟨c, PieceKind.king⟩) squaresList with
    | none => none
    | some r => some r.isSome

/-- The mutable fields of the source `Board` object that the rule engine
reads or writes (GUI-only fields — highlights, images, window title — are
omitted).  `promo`: the color whose promotion menu (a non-modal Toplevel
with four piece buttons) is currently open, `none` when no button-bearing
menu is open.  The source calls `promotion_menu(self.piece_color)`; when
`piece_color` is `None` the menu is created with no buttons at all, which
is modelled as no resolvable menu. -/
structure GameState where
  board : Board
  buttons_pressed : Nat
  turns : Nat
  piece_color : Option Color
  sq1 : Square
  sq2 : Square
  wk_moved : Bool
  bk_moved : Bool
  wr1_moved : Bool
  wr2_moved : Bool
  br1_moved : Bool
  br2_moved : Bool
  castled : Bool
  move_history : List (Square × Square × Option Piece)
  promo : Option Color

/-- The observable outcome of one `Board.select_piece` call. -/
inductive ClickResult where
  | selected
  | notYourTurn
  | cancelled
  | rejectedIllegalPattern
  | rejectedFriendlyFire
  | rejectedSelfCheck
  | committed (promoPending : Bool)
  | fallback
deriving DecidableEq, Repr

/-- The legality scans a first click performs (`highlight_legal_moves` and
the window-title loop): they evaluate `allowed_piece_move` from the
selected square to every square on the board, so a `KeyError` in any of
those evaluations aborts the click.  `true` iff the scan completes. -/
def scan_targets (board : Board) (sq1 : Square) : Bool :=
  squaresList.all (fun t => (allowed_piece_move board sq1 t).isSome)

/-- The color the first-click branch of `Board.select_piece` accepts: the
clicked piece's color when it matches the side to move (even `turns` =
white, odd = black), `none` otherwise (the source just `return`s). -/
def first_click_color (s : GameState) (sq : Square) : Option Color :=
  match s.board sq with
  | some p =>
    if p.color = Color.white ∧ s.turns % 2 = 0 then some Color.white
    else if p.color = Color.black ∧ s.turns % 2 = 1 then some Color.black
    else none
  | none => none

/-- The commit path of `Board.select_piece` (the `else` of the self-check
test): update castling flags keyed on the moved piece and its origin
square, reset `buttons_pressed`, bump `turns`, append to `move_history`,
open the promotion menu when the moved piece is a pawn landing on its
last rank, and finally (lines 171–174 of the source) reset `castled` and
`piece_color`.  `p1` is the moved piece's image, `board2` the board with
the move applied; `newSq1`/`newSq2` are the values `self.sq1`/`self.sq2`
hold after the call (restored by `in_check` on its `False` path, left
clobbered on the unreachable commit-while-castled path). -/
def commit_move (s : GameState) (sq : Square) (p1 : Option Piece) (board2 : Board)
    (newSq1 newSq2 : Square) : GameState × ClickResult :=
  let promoPending : Bool :=
    (p1 == some ⟨Color.white, PieceKind.pawn⟩ && sq.2 == 7) ||
    (p1 == some ⟨Color.black, PieceKind.pawn⟩ && sq.2 == 0)
  ({ s with
      board := board2,
      wk_moved := s.wk_moved || p1 == some ⟨Color.white, PieceKind.king⟩,
      bk_moved := s.bk_moved || p1 == some ⟨Color.black, PieceKind.king⟩,
      wr1_moved := s.wr1_moved ||
        (p1 == some ⟨Color.white, PieceKind.rook⟩ && s.sq1 == ((0 : Nat), (0 : Nat))),
      wr2_moved := s.wr2_moved ||
        (p1 == some ⟨Color.white, PieceKind.rook⟩ && s.sq1 == ((7 : Nat), (0 : Nat))),
      br1_moved := s.br1_moved ||
        (p1 == some ⟨Color.black, PieceKind.rook⟩ && s.sq1 == ((0 : Nat), (7 : Nat))),
      br2_moved := s.br2_moved ||
        (p1 == some ⟨Color.black, PieceKind.rook⟩ && s.sq1 == ((7 : Nat), (7 : Nat))),
      buttons_pressed := 0,
      turns := s.turns + 1,
      move_history := s.move_history ++ [(s.sq1, sq, p1)],
      promo := if promoPending then s.piece_color else s.promo,
      sq1 := newSq1,
      sq2 := newSq2,
      castled := false,
      piece_color := none },
   ClickResult.committed promoPending)

/-- The board after moving the image at `self.sq1` to `sq` (lines 127–130
of the source: the destination button receives the moving image, then the
origin button receives the blank image). -/
def moved_board (s : GameState) (sq : Square) : Board :=
  fun t => if t = sq then s.board s.sq1 else if t = s.sq1 then none else s.board t

/-- `Board.select_piece`, one click on square `sq`, transcribed branch by
branch from the source:
* first click (`buttons_pressed == 0`): accept only a piece of the side
  to move, then run the highlight/title scans (which leave `self.sq2` at
  the last square scanned, `h8`);
* second click: re-clicking `sq1` cancels; an illegal pattern or friendly
  fire falls through to the reset lines 171–174, which clear `castled`
  and `piece_color` but NOT `buttons_pressed`; otherwise the move is
  applied, `in_check` is consulted, and the move is either reverted
  (self-check; the board is restored exactly, `self.sq1`/`self.sq2` are
  left at the attacker and king square `in_check` stored) or committed;
* any other `buttons_pressed` value resets it to 0.
A `none` result models a Python exception escaping the call. -/
def select_piece (s : GameState) (sq : Square) : Option (GameState × ClickResult) :=
  if s.buttons_pressed = 0 then
    match first_click_color s sq with
    | none => some (s, ClickResult.notYourTurn)
    | some c =>
      if scan_targets s.board sq then
        some ({ s with piece_color := some c, sq1 := sq,
                       sq2 := ((7 : Nat), (7 : Nat)), buttons_pressed := 1 },
              ClickResult.selected)
      else none
  else if s.buttons_pressed = 1 then
    if sq = s.sq1 then
      some ({ s with sq2 := sq, buttons_pressed := 0 }, ClickResult.cancelled)
    else
      match allowed_piece_move s.board s.sq1 sq with
      | none => none
      | some false =>
        some ({ s with sq2 := sq, castled := false, piece_color := none },
              ClickResult.rejectedIllegalPattern)
      | some true =>
        if friendly_fire s.board s.piece_color sq then
          some ({ s with sq2 := sq, castled := false, piece_color := none },
                ClickResult.rejectedFriendlyFire)
        else
          match s.piece_color with
          | none =>
            some (commit_move s sq (s.board s.sq1) (moved_board s sq) s.sq1 sq)
          | some c =>
            match check_scan (moved_board s sq) c
                (find_king (moved_board s sq) ⟨c, PieceKind.king⟩) squaresList with
            | none => none
            | some none =>
              some (commit_move s sq (s.board s.sq1) (moved_board s sq) s.sq1 sq)
            | some (some att) =>
              if s.castled then
                some (commit_move s sq (s.board s.sq1) (moved_board s sq) att
                  ((find_king (moved_board s sq) ⟨c, PieceKind.king⟩).getD sq))
              else
                some ({ s with
                          sq2 := (find_king (moved_board s sq)
                            ⟨c, PieceKind.king⟩).getD sq,
                          sq1 := att, buttons_pressed := 0 },
                      ClickResult.rejectedSelfCheck)
  else
    some ({ s with buttons_pressed := 0 }, ClickResult.fallback)

/-- Convenience: the state after a click (identity if the click raised). -/
def step (s : GameState) (sq : Square) : GameState :=
  match select_piece s sq with
  | some (s', _) => s'
  | none => s

/-- Convenience: the result of a click, `none` if the click raised. -/
def stepr (s : GameState) (sq : Square) : Option ClickResult :=
  (select_piece s sq).map Prod.snd

/-- The back-rank piece layout of `Board.set_pieces`. -/
def backRank : Nat → Option PieceKind
  | 0 => some PieceKind.rook
  | 1 => some PieceKind.knight
  | 2 => some PieceKind.bishop
  | 3 => some PieceKind.queen
  | 4 => some PieceKind.king
  | 5 => some PieceKind.bishop
  | 6 => some PieceKind.knight
  | 7 => some PieceKind.rook
  | _ => none

/-- The standard initial configuration placed by `Board.set_pieces`. -/
def init_board : Board := fun sq =>
  match sq.2 with
  | 0 => (backRank sq.1).map (fun k => ⟨Color.white, k⟩)
  | 1 => if sq.1 < 8 then some ⟨Color.white, PieceKind.pawn⟩ else none
  | 6 => if sq.1 < 8 then some ⟨Color.black, PieceKind.pawn⟩ else none
  | 7 => (backRank sq.1).map (fun k => ⟨Color.black, k⟩)
  | _ => none

/-- The freshly constructed `Board` object (`__init__` plus `set_pieces`):
white to move, nothing selected, all castling flags clear, empty history.
`sq1`/`sq2` do not exist yet in the source; they are given a dummy value
that no code path reads before writing. -/
def init_state : GameState :=
  { board := init_board
    buttons_pressed := 0
    turns := 0
    piece_color := none
    sq1 := ((0 : Nat), (0 : Nat))
    sq2 := ((0 : Nat), (0 : Nat))
    wk_moved := false
    bk_moved := false
    wr1_moved := false
    wr2_moved := false
    br1_moved := false
    br2_moved := false
    castled := false
    move_history := []
    promo := none }

/-- The four pieces offered by `Board.promotion_menu` for a given color. -/
def promotion_pieces (c : Color) : List Piece :=
  [⟨c, PieceKind.knight⟩, ⟨c, PieceKind.bishop⟩,
   ⟨c, PieceKind.rook⟩, ⟨c, PieceKind.queen⟩]

/-- The state after `return_piece(piece_img)` inside `promotion_menu`
runs: the square currently stored in `self.sq2` receives the chosen
piece and the menu window is destroyed. -/
def promo_resolved (s : GameState) (p : Piece) : GameState :=
  { s with
      board := fun t => if t = s.sq2 then some p else s.board t,
      promo := none }

/-- Clicking one of the promotion menu's buttons: only possible while a
button-bearing menu is open, and only for the four pieces of the menu's
color. -/
def resolve_promotion (s : GameState) (p : Piece) : Option GameState :=
  match s.promo with
  | some c =>
    if p ∈ promotion_pieces c then some (promo_resolved s p) else none
  | none => none

/-- The inner target loop of `Board.random_ai_move` for one source
square: collect every target with `allowed_piece_move` true and
`friendly_fire` false (the latter consults the session's current
`piece_color`, not the mover's color); a `KeyError` in any
`allowed_piece_move` aborts the whole enumeration. -/
def aiTargets (board : Board) (pc : Option Color) (sq : Square) :
    List Square → Option (List Square)
  | [] => some []
  | t :: rest =>
    match allowed_piece_move board sq t with
    | none => none
    | some b =>
      match aiTargets board pc sq rest with
      | none => none
      | some l =>
        some (if b && !(friendly_fire board pc t) then t :: l else l)

/-- The outer loop of `Board.random_ai_move`: every square holding a
piece of the side to move contributes its collected targets, in board
order. -/
def aiScan (board : Board) (pc : Option Color) (mover : Color) :
    List Square → Option (List (Square × Square))
  | [] => some []
  | sq :: rest =>
    match board sq with
    | some p =>
      if p.color = mover then
        match aiTargets board pc sq squaresList with
        | none => none
        | some ts =>
          match aiScan board pc mover rest with
          | none => none
          | some l => some (ts.map (fun t => (sq, t)) ++ l)
      else aiScan board pc mover rest
    | none => aiScan board pc mover rest

/-- The `movable` list `Board.random_ai_move` builds for the current
state (the side to move is derived from `turns` parity exactly as in the
source). -/
def ai_movable (s : GameState) : Option (List (Square × Square)) :=
  let mover := if s.turns % 2 = 1 then Color.black else Color.white
  aiScan s.board s.piece_color mover squaresList

/-- The tail of `Board.random_ai_move` once `random.choice` has picked
`m` from `movable`: it stores the pair in `self.sq1`/`self.sq2` and then
calls `select_piece` on the DESTINATION square's button. -/
def random_ai_move_pick (s : GameState) (m : Square × Square) :
    Option (GameState × ClickResult) :=
  select_piece { s with sq1 := m.1, sq2 := m.2 } m.2

/-! ### Concrete runs used by the claim theorems -/

/-- Click a2 from the initial position (White selects the a-pawn). -/
def c1_t1 : GameState := step init_state ((0 : Nat), (1 : Nat))

/-- Click a3: White commits a2–a3. -/
def c1_t2 : GameState := step c1_t1 ((0 : Nat), (2 : Nat))

/-- Click e7 (Black selects the e-pawn). -/
def c1_t3 : GameState := step c1_t2 ((4 : Nat), (6 : Nat))

/-- Click e6: Black commits e7–e6. -/
def c1_t4 : GameState := step c1_t3 ((4 : Nat), (5 : Nat))

/-- Click a3 (White selects the a-pawn again). -/
def c1_t5 : GameState := step c1_t4 ((0 : Nat), (2 : Nat))

/-- Click a4: White commits a3–a4. -/
def c1_t6 : GameState := step c1_t5 ((0 : Nat), (3 : Nat))

/-- Click f8 (Black selects the f8 bishop). -/
def c1_t7 : GameState := step c1_t6 ((5 : Nat), (7 : Nat))

/-- Click b4: Black commits Bf8–b4, aiming at e1 through c3 and d2. -/
def c1_t8 : GameState := step c1_t7 ((1 : Nat), (3 : Nat))

/-- Click d2 (White selects the d-pawn). -/
def c1_t9 : GameState := step c1_t8 ((3 : Nat), (1 : Nat))

/-- Click d5: rejected as an illegal pawn pattern.  The source leaves
`buttons_pressed = 1` and sets `piece_color = None` here. -/
def c1_t10 : GameState := step c1_t9 ((3 : Nat), (4 : Nat))

/-- Click d3: because the previous rejection left the selection active
with `piece_color = None`, this commits d2–d3 with the self-check test
short-circuited. -/
def c1_t11 : GameState := step c1_t10 ((3 : Nat), (2 : Nat))

/-- A board on which `Board.in_check` raises `KeyError`: White king h1,
Black queen a2 (whose scan toward h1 walks b1, then the nonexistent
square at rank digit 0), Black rook h8 (a genuine attacker of h1 along
the empty h-file, scanned only after the queen), Black king a8. -/
def c8board : Board := fun sq =>
  if sq = ((7 : Nat), (0 : Nat)) then some ⟨Color.white, PieceKind.king⟩
  else if sq = ((0 : Nat), (1 : Nat)) then some ⟨Color.black, PieceKind.queen⟩
  else if sq = ((7 : Nat), (7 : Nat)) then some ⟨Color.black, PieceKind.rook⟩
  else if sq = ((0 : Nat), (7 : Nat)) then some ⟨Color.black, PieceKind.king⟩
  else none

/-- A promotion position: White pawn a7 about to promote, kings on e1
and e8, and a Black pawn on h7 that can still move. -/
def c4_board : Board := fun sq =>
  if sq = ((0 : Nat), (6 : Nat)) then some ⟨Color.white, PieceKind.pawn⟩
  else if sq = ((4 : Nat), (0 : Nat)) then some ⟨Color.white, PieceKind.king⟩
  else if sq = ((4 : Nat), (7 : Nat)) then some ⟨Color.black, PieceKind.king⟩
  else if sq = ((7 : Nat), (6 : Nat)) then some ⟨Color.black, PieceKind.pawn⟩
  else none

/-- The promotion position as a fresh session with White to move. -/
def c4_s0 : GameState := { init_state with board := c4_board }

/-- Click a7 (White selects the promoting pawn). -/
def c4_s1 : GameState := step c4_s0 ((0 : Nat), (6 : Nat))

/-- Click a8: White commits a7–a8; the promotion menu opens. -/
def c4_s2 : GameState := step c4_s1 ((0 : Nat), (7 : Nat))

/-- Click h7 with the promotion still unresolved (Black selects a pawn). -/
def c4_s3 : GameState := step c4_s2 ((7 : Nat), (6 : Nat))

/-- Click h6 with the promotion still unresolved: Black commits h7–h6. -/
def c4_s4 : GameState := step c4_s3 ((7 : Nat), (5 : Nat))

/-! ### Claim theorems: concrete evaluations -/

/-- C1 (code bug): a sequence of committed moves from the standard
initial position after which a committed move leaves the mover's own
king attacked.  After a2–a3, e7–e6, a3–a4, Bf8–b4 and a rejected attempt
d2–d5 (which leaves the selection active and clears `piece_color`), the
click on d3 is COMMITTED even though it exposes White's king to the b4
bishop: `in_check` returns `False` outright when `piece_color` is
`None`, so the self-check test of the claim is skipped and the resulting
board has White's king attacked. -/
theorem c1_self_check_invariant_violated :
    [stepr init_state ((0 : Nat), (1 : Nat)), stepr c1_t1 ((0 : Nat), (2 : Nat)),
     stepr c1_t2 ((4 : Nat), (6 : Nat)), stepr c1_t3 ((4 : Nat), (5 : Nat)),
     stepr c1_t4 ((0 : Nat), (2 : Nat)), stepr c1_t5 ((0 : Nat), (3 : Nat)),
     stepr c1_t6 ((5 : Nat), (7 : Nat)), stepr c1_t7 ((1 : Nat), (3 : Nat)),
     stepr c1_t8 ((3 : Nat), (1 : Nat)), stepr c1_t9 ((3 : Nat), (4 : Nat)),
     stepr c1_t10 ((3 : Nat), (2 : Nat))] =
      [some ClickResult.selected, some (ClickResult.committed false),
       some ClickResult.selected, some (ClickResult.committed false),
       some ClickResult.selected, some (ClickResult.committed false),
       some ClickResult.selected, some (ClickResult.committed false),
       some ClickResult.selected, some ClickResult.rejectedIllegalPattern,
       some (ClickResult.committed false)] ∧
    in_check c1_t11.board (some Color.white) = some true := by
  exact ⟨by decide, by decide⟩

/-- Click e2 from the initial position (White selects the e-pawn). -/
def c3_s1 : GameState := step init_state ((4 : Nat), (1 : Nat))

/-- C3 (counterexample): after selecting e2 from the initial position,
the rejected attempt e2–e5 does NOT return the session to `Idle`: the
source never resets `buttons_pressed` on the illegal-pattern /
friendly-fire rejection path, so the e2 selection stays active and the
next click — even on White's own d2 pawn, which a fresh first click
would simply select — is processed as a second click and rejected. -/
theorem c3_counterexample :
    stepr c3_s1 ((4 : Nat), (4 : Nat)) = some ClickResult.rejectedIllegalPattern ∧
    (step c3_s1 ((4 : Nat), (4 : Nat))).buttons_pressed = 1 ∧
    (step c3_s1 ((4 : Nat), (4 : Nat))).sq1 = ((4 : Nat), (1 : Nat)) ∧
    stepr (step c3_s1 ((4 : Nat), (4 : Nat))) ((3 : Nat), (1 : Nat)) =
      some ClickResult.rejectedIllegalPattern := by
  refine ⟨by decide, by decide, by decide, by decide⟩

/-- C4 (counterexample): in the promotion position (White pawn a7, kings
e1/e8, Black pawn h7), White commits a7–a8 and the promotion menu opens
(`promo = some white`), yet the subsequent move attempts are NOT
rejected: Black's h7 click is accepted as a selection and the h6 click
COMMITS a move — the board changes — while the promotion of a8 is still
unresolved (a8 still holds the White pawn). -/
theorem c4_counterexample :
    stepr c4_s1 ((0 : Nat), (7 : Nat)) = some (ClickResult.committed true) ∧
    c4_s2.promo = some Color.white ∧
    stepr c4_s2 ((7 : Nat), (6 : Nat)) = some ClickResult.selected ∧
    c4_s3.promo = some Color.white ∧
    stepr c4_s3 ((7 : Nat), (5 : Nat)) = some (ClickResult.committed false) ∧
    c4_s4.promo = some Color.white ∧
    c4_s4.board ((7 : Nat), (5 : Nat)) = some ⟨Color.black, PieceKind.pawn⟩ ∧
    c4_s4.board ((0 : Nat), (7 : Nat)) = some ⟨Color.white, PieceKind.pawn⟩ := by
  refine ⟨by decide, by decide, by decide, by decide, by decide, by decide,
    by decide, by decide⟩

/-- C5 (code bug): from a fresh session at the initial position the
`movable` list built by `Board.random_ai_move` contains the pair
(a1, a1) — a null "move" whose destination holds the mover's own rook,
i.e. a friendly-fire pair, because `friendly_fire` consults the stale
`piece_color` field (`None` in a fresh session) instead of the mover's
color, and no self-check filtering is performed at all; moreover the
chosen pair is handed to `select_piece` as a FIRST click on the
destination square, so picking (a1, a2) merely SELECTS the a2 pawn — the
move is never applied and every square of the board is unchanged. -/
theorem c5_random_mover_divergence :
    (ai_movable init_state).map
        (fun l => l.contains (((0 : Nat), (0 : Nat)), ((0 : Nat), (0 : Nat)))) =
      some true ∧
    (ai_movable init_state).map
        (fun l => l.contains (((0 : Nat), (0 : Nat)), ((0 : Nat), (1 : Nat)))) =
      some true ∧
    friendly_fire init_board (some Color.white) ((0 : Nat), (0 : Nat)) = true ∧
    (random_ai_move_pick init_state (((0 : Nat), (0 : Nat)), ((0 : Nat), (1 : Nat)))).map
        Prod.snd = some ClickResult.selected ∧
    (random_ai_move_pick init_state (((0 : Nat), (0 : Nat)), ((0 : Nat), (1 : Nat)))).map
        (fun x => squaresList.all (fun t => x.1.board t == init_board t)) =
      some true := by
  refine ⟨by decide, by decide, by decide, by decide, by decide⟩

/-- C6 (counterexample): the rook on a1 of the initial position is
pseudo-legally allowed to "move" to its own square — the source's rook
clause accepts `same file` with an empty strictly-between interval, so
`isPseudoLegal(board, s, s)` is TRUE for a rook, not false as claimed. -/
theorem c6_counterexample :
    init_board ((0 : Nat), (0 : Nat)) = some ⟨Color.white, PieceKind.rook⟩ ∧
    allowed_piece_move init_board ((0 : Nat), (0 : Nat)) ((0 : Nat), (0 : Nat)) =
      some true := by
  exact ⟨by decide, by decide⟩

/-- C8 (counterexample): a board containing a White king (h1) and an
enemy piece (the h8 rook) whose pseudo-legality check to the king's
square returns true, on which `in_check` nevertheless does NOT return
true: the scan reaches the Black queen on a2 first, and her diagonal
scan toward h1 steps off the board (rank digit 0), raising `KeyError`
before the rook is ever examined. -/
theorem c8_counterexample :
    c8board ((7 : Nat), (0 : Nat)) = some ⟨Color.white, PieceKind.king⟩ ∧
    find_king c8board ⟨Color.white, PieceKind.king⟩ = some ((7 : Nat), (0 : Nat)) ∧
    c8board ((7 : Nat), (7 : Nat)) = some ⟨Color.black, PieceKind.rook⟩ ∧
    allowed_piece_move c8board ((7 : Nat), (7 : Nat)) ((7 : Nat), (0 : Nat)) =
      some true ∧
    in_check c8board (some Color.white) = none := by
  refine ⟨by decide, by decide, by decide, by decide, by decide⟩

/-! ### Helper lemmas about the embedded operations -/

/-- After a move is applied, the origin square is blank. -/
theorem moved_board_at_sq1 (s : GameState) (sq : Square) (hne : ¬sq = s.sq1) :
    moved_board s sq s.sq1 = none := by
  unfold moved_board
  rw [if_neg (fun hh => hne hh.symm), if_pos rfl]

/-- After a move is applied, the destination holds the moved image. -/
theorem moved_board_at_sq (s : GameState) (sq : Square) :
    moved_board s sq sq = s.board s.sq1 := by
  unfold moved_board
  rw [if_pos rfl]

/-- After a move is applied, every other square is untouched. -/
theorem moved_board_at_other (s : GameState) (sq t : Square)
    (h1 : t ≠ s.sq1) (h2 : t ≠ sq) : moved_board s sq t = s.board t := by
  unfold moved_board
  rw [if_neg h2, if_neg h1]

/-! ### Claim theorems: session-level properties -/

/-- C2: every rejected move attempt — wrong turn, illegal pattern,
friendly fire, or self-check — leaves the board contents, all six
castling flags, and the move history exactly as they were.  (The
first-click rejection touches nothing at all; the pattern/friendly-fire
rejections fall through to lines 171–174, which touch only `castled`,
highlights and `piece_color`; the self-check path applies the move and
then restores both touched squares from the saved images.) -/
theorem c2_rejected_attempt_preserves_state (s : GameState) (sq : Square)
    (s' : GameState) (r : ClickResult)
    (h : select_piece s sq = some (s', r))
    (hr : r = ClickResult.notYourTurn ∨ r = ClickResult.rejectedIllegalPattern ∨
      r = ClickResult.rejectedFriendlyFire ∨ r = ClickResult.rejectedSelfCheck) :
    s'.board = s.board ∧ s'.wk_moved = s.wk_moved ∧ s'.bk_moved = s.bk_moved ∧
    s'.wr1_moved = s.wr1_moved ∧ s'.wr2_moved = s.wr2_moved ∧
    s'.br1_moved = s.br1_moved ∧ s'.br2_moved = s.br2_moved ∧
    s'.move_history = s.move_history := by
  unfold select_piece at h
  repeat' split at h
  all_goals first
    | exact Option.noConfusion h
    | (injection h with h1; injection h1 with h2 h3; subst h2; subst h3;
       first
         | exact ⟨rfl, rfl, rfl, rfl, rfl, rfl, rfl, rfl⟩
         | simp at hr)

/-- C2 witness: clicking the empty square e5 from the initial position is
rejected as `NotYourTurn` and preserves every state component. -/
theorem c2_rejected_attempt_preserves_state_witness :
    select_piece init_state ((4 : Nat), (4 : Nat)) =
      some (init_state, ClickResult.notYourTurn) ∧
    (init_state.board = init_state.board ∧
     init_state.wk_moved = init_state.wk_moved ∧
     init_state.bk_moved = init_state.bk_moved ∧
     init_state.wr1_moved = init_state.wr1_moved ∧
     init_state.wr2_moved = init_state.wr2_moved ∧
     init_state.br1_moved = init_state.br1_moved ∧
     init_state.br2_moved = init_state.br2_moved ∧
     init_state.move_history = init_state.move_history) :=
  ⟨rfl, c2_rejected_attempt_preserves_state init_state ((4 : Nat), (4 : Nat))
      init_state ClickResult.notYourTurn rfl (Or.inl rfl)⟩

/-- C3 (amended): what the session state actually is after each kind of
rejection.  A wrong-turn rejection leaves the session `Idle`
(`buttons_pressed` was 0 and is untouched) and a self-check rejection
returns it to `Idle`; but an illegal-pattern or friendly-fire rejection
leaves the clicked piece SELECTED (`buttons_pressed` stays 1) with the
same `sq1` and with `piece_color` cleared to `None`, so the next click is
processed as a second click of the still-active selection rather than as
a fresh first click. -/
theorem c3_rejection_state_after (s : GameState) (sq : Square)
    (s' : GameState) (r : ClickResult)
    (h : select_piece s sq = some (s', r)) :
    ((r = ClickResult.notYourTurn ∨ r = ClickResult.rejectedSelfCheck) →
        s'.buttons_pressed = 0) ∧
    ((r = ClickResult.rejectedIllegalPattern ∨ r = ClickResult.rejectedFriendlyFire) →
        s'.buttons_pressed = 1 ∧ s'.sq1 = s.sq1 ∧ s'.piece_color = none) := by
  unfold select_piece at h
  repeat' split at h
  all_goals first
    | exact Option.noConfusion h
    | (injection h with h1; injection h1 with h2 h3; subst h2; subst h3;
       constructor <;> intro hx <;> simp_all [commit_move])

/-- C3 witness: the rejected attempt e2–e5 leaves the e2 selection active
with `piece_color` cleared. -/
theorem c3_rejection_state_after_witness :
    ((ClickResult.rejectedIllegalPattern = ClickResult.notYourTurn ∨
      ClickResult.rejectedIllegalPattern = ClickResult.rejectedSelfCheck) →
        (step c3_s1 ((4 : Nat), (4 : Nat))).buttons_pressed = 0) ∧
    ((ClickResult.rejectedIllegalPattern = ClickResult.rejectedIllegalPattern ∨
      ClickResult.rejectedIllegalPattern = ClickResult.rejectedFriendlyFire) →
        (step c3_s1 ((4 : Nat), (4 : Nat))).buttons_pressed = 1 ∧
        (step c3_s1 ((4 : Nat), (4 : Nat))).sq1 = c3_s1.sq1 ∧
        (step c3_s1 ((4 : Nat), (4 : Nat))).piece_color = none) :=
  c3_rejection_state_after c3_s1 ((4 : Nat), (4 : Nat))
    (step c3_s1 ((4 : Nat), (4 : Nat))) ClickResult.rejectedIllegalPattern rfl

/-- C9: a committed non-promotion move changes exactly the two squares
involved: the origin becomes blank, the destination receives the image
the origin held, and every other square keeps its contents. -/
theorem c9_commit_frame_effect (s : GameState) (sq : Square) (s' : GameState)
    (h : select_piece s sq = some (s', ClickResult.committed false)) :
    s'.board s.sq1 = none ∧ s'.board sq = s.board s.sq1 ∧
    ∀ t, t ≠ s.sq1 → t ≠ sq → s'.board t = s.board t := by
  unfold select_piece at h
  repeat' split at h
  all_goals first
    | exact Option.noConfusion h
    | (injection h with h1; injection h1 with h2 h3;
       first
         | exact ClickResult.noConfusion h3
         | (subst h2;
            exact ⟨moved_board_at_sq1 s sq (by assumption), moved_board_at_sq s sq,
                   fun t ht1 ht2 => moved_board_at_other s sq t ht1 ht2⟩))

/-- C9 witness: the committed double push e2–e4 empties e2, puts the
White pawn on e4, and leaves a1 (as one sampled other square) untouched. -/
theorem c9_commit_frame_effect_witness :
    (step c3_s1 ((4 : Nat), (3 : Nat))).board c3_s1.sq1 = none ∧
    (step c3_s1 ((4 : Nat), (3 : Nat))).board ((4 : Nat), (3 : Nat)) =
      c3_s1.board c3_s1.sq1 ∧
    (step c3_s1 ((4 : Nat), (3 : Nat))).board ((0 : Nat), (0 : Nat)) =
      c3_s1.board ((0 : Nat), (0 : Nat)) :=
  ⟨(c9_commit_frame_effect c3_s1 ((4 : Nat), (3 : Nat))
      (step c3_s1 ((4 : Nat), (3 : Nat))) rfl).1,
   (c9_commit_frame_effect c3_s1 ((4 : Nat), (3 : Nat))
      (step c3_s1 ((4 : Nat), (3 : Nat))) rfl).2.1,
   (c9_commit_frame_effect c3_s1 ((4 : Nat), (3 : Nat))
      (step c3_s1 ((4 : Nat), (3 : Nat))) rfl).2.2 ((0 : Nat), (0 : Nat))
      (by decide) (by decide)⟩

/-- C4 (amended): a committed pawn move onto the farthest rank leaves the
session already `Idle` (`buttons_pressed = 0`) with the promotion menu
open, but does NOT block further play; if the promotion is resolved
while `self.sq2` still holds the promotion square — in particular,
immediately, before any further click — then choosing any of the menu's
four pieces replaces the piece at the promotion square with that piece
and closes the menu, leaving all other squares untouched.  (The
unreachable commit-while-`castled` branch is excluded by `hc`.) -/
theorem c4_promotion_resolution (s : GameState) (sq : Square) (s' : GameState)
    (hc : s.castled = false)
    (h : select_piece s sq = some (s', ClickResult.committed true))
    (c : Color) (hp : s'.promo = some c) (p : Piece)
    (hmem : p ∈ promotion_pieces c) :
    s'.buttons_pressed = 0 ∧ s'.sq2 = sq ∧
    resolve_promotion s' p = some (promo_resolved s' p) ∧
    (promo_resolved s' p).board sq = some p ∧
    (promo_resolved s' p).promo = none ∧
    (∀ t, t ≠ sq → (promo_resolved s' p).board t = s'.board t) := by
  unfold select_piece at h
  repeat' split at h
  all_goals first
    | exact Option.noConfusion h
    | (injection h with h1; injection h1 with h2 h3;
       first
         | exact ClickResult.noConfusion h3
         | (subst h2;
            refine ⟨rfl, rfl, ?_, ?_, rfl, ?_⟩
            · unfold resolve_promotion
              rw [hp]
              simp [hmem]
            · simp [promo_resolved]
            · intro t ht
              simp [promo_resolved, ht])
         | simp_all)

/-- C4 witness: resolving the a7–a8 promotion immediately with a queen
installs the White queen on a8, closes the menu, and leaves e1 (as one
sampled other square) untouched. -/
theorem c4_promotion_resolution_witness :
    c4_s2.buttons_pressed = 0 ∧ c4_s2.sq2 = ((0 : Nat), (7 : Nat)) ∧
    resolve_promotion c4_s2 ⟨Color.white, PieceKind.queen⟩ =
      some (promo_resolved c4_s2 ⟨Color.white, PieceKind.queen⟩) ∧
    (promo_resolved c4_s2 ⟨Color.white, PieceKind.queen⟩).board ((0 : Nat), (7 : Nat)) =
      some ⟨Color.white, PieceKind.queen⟩ ∧
    (promo_resolved c4_s2 ⟨Color.white, PieceKind.queen⟩).promo = none ∧
    (promo_resolved c4_s2 ⟨Color.white, PieceKind.queen⟩).board ((4 : Nat), (0 : Nat)) =
      c4_s2.board ((4 : Nat), (0 : Nat)) :=
  ⟨(c4_promotion_resolution c4_s1 ((0 : Nat), (7 : Nat)) c4_s2 (by decide) rfl
      Color.white (by decide) ⟨Color.white, PieceKind.queen⟩ (by decide)).1,
   (c4_promotion_resolution c4_s1 ((0 : Nat), (7 : Nat)) c4_s2 (by decide) rfl
      Color.white (by decide) ⟨Color.white, PieceKind.queen⟩ (by decide)).2.1,
   (c4_promotion_resolution c4_s1 ((0 : Nat), (7 : Nat)) c4_s2 (by decide) rfl
      Color.white (by decide) ⟨Color.white, PieceKind.queen⟩ (by decide)).2.2.1,
   (c4_promotion_resolution c4_s1 ((0 : Nat), (7 : Nat)) c4_s2 (by decide) rfl
      Color.white (by decide) ⟨Color.white, PieceKind.queen⟩ (by decide)).2.2.2.1,
   (c4_promotion_resolution c4_s1 ((0 : Nat), (7 : Nat)) c4_s2 (by decide) rfl
      Color.white (by decide) ⟨Color.white, PieceKind.queen⟩ (by decide)).2.2.2.2.1,
   (c4_promotion_resolution c4_s1 ((0 : Nat), (7 : Nat)) c4_s2 (by decide) rfl
      Color.white (by decide) ⟨Color.white, PieceKind.queen⟩ (by decide)).2.2.2.2.2
     ((4 : Nat), (0 : Nat)) (by decide)⟩

/-- C10: any piece a promotion resolution can install is one of the four
menu pieces — Knight, Bishop, Rook or Queen — of exactly the color the
menu was opened for (the promoting side's `piece_color`); it is never a
King or a Pawn and never of the opposite color, and it lands on the
square currently stored in `self.sq2`. -/
theorem c10_promotion_installs_menu_piece (s : GameState) (p : Piece)
    (s' : GameState) (h : resolve_promotion s p = some s') :
    s.promo = some p.color ∧ p.kind ≠ PieceKind.king ∧ p.kind ≠ PieceKind.pawn ∧
    (p.kind = PieceKind.knight ∨ p.kind = PieceKind.bishop ∨
      p.kind = PieceKind.rook ∨ p.kind = PieceKind.queen) ∧
    s'.board s.sq2 = some p := by
  unfold resolve_promotion at h
  repeat' split at h
  all_goals first
    | exact Option.noConfusion h
    | (injection h with h1; subst h1;
       rename_i hmem
       simp only [promotion_pieces, List.mem_cons, List.not_mem_nil, or_false] at hmem
       rcases hmem with rfl | rfl | rfl | rfl <;>
         exact ⟨by assumption, by simp, by simp, by simp, by simp [promo_resolved]⟩)

/-- C10 witness: resolving the a7–a8 promotion with a queen is a
resolution whose installed piece is the White queen on the stored
square. -/
theorem c10_promotion_installs_menu_piece_witness :
    resolve_promotion c4_s2 ⟨Color.white, PieceKind.queen⟩ =
      some (promo_resolved c4_s2 ⟨Color.white, PieceKind.queen⟩) ∧
    (c4_s2.promo = some Color.white ∧
     PieceKind.queen ≠ PieceKind.king ∧ PieceKind.queen ≠ PieceKind.pawn ∧
     (PieceKind.queen = PieceKind.knight ∨ PieceKind.queen = PieceKind.bishop ∨
      PieceKind.queen = PieceKind.rook ∨ PieceKind.queen = PieceKind.queen) ∧
     (promo_resolved c4_s2 ⟨Color.white, PieceKind.queen⟩).board c4_s2.sq2 =
       some ⟨Color.white, PieceKind.queen⟩) :=
  ⟨rfl, c10_promotion_installs_menu_piece c4_s2 ⟨Color.white, PieceKind.queen⟩
      (promo_resolved c4_s2 ⟨Color.white, PieceKind.queen⟩) rfl⟩

/-! ### Spec-side definitions (following the specification's words, for
comparison with the source-derived definitions) -/

/-- Spec §4.1: the squares strictly between two squares that share a file
or a rank (empty when they share neither, or are adjacent, or equal). -/
def betweenSquares (a b : Square) : List Square :=
  if a.1 = b.1 then
    (stepsBetween (min a.2 b.2) (max a.2 b.2)).map (fun r => (a.1, r))
  else if a.2 = b.2 then
    (stepsBetween (min a.1 b.1) (max a.1 b.1)).map (fun f => (f, a.2))
  else []

/-- Spec §4.1 (White pawn, single push): `to` is the same file, one rank
ahead, and empty. -/
def specWhiteSinglePush (board : Board) (f t : Square) : Prop :=
  t.1 = f.1 ∧ t.2 = f.2 + 1 ∧ board t = none

/-- Spec §4.1 (White pawn, double push): only from rank 2 (index 1) to
rank 4 (index 3), same file, both the rank-3 and rank-4 squares on that
file empty. -/
def specWhiteDoublePush (board : Board) (f t : Square) : Prop :=
  f.2 = 1 ∧ t.2 = 3 ∧ t.1 = f.1 ∧ board (f.1, 2) = none ∧ board (f.1, 3) = none

/-- Spec §4.1 (White pawn, diagonal capture): one rank ahead, adjacent
file, and `to` holds a Black piece. -/
def specWhiteCapture (board : Board) (f t : Square) : Prop :=
  t.2 = f.2 + 1 ∧ (t.1 = f.1 + 1 ∨ f.1 = t.1 + 1) ∧
  ∃ p, board t = some p ∧ p.color = Color.black

/-- The straight-line scan finds no blocker exactly when every square
strictly between the endpoints (on a shared file or rank) is empty. -/
theorem straightBlocked_eq_false_iff (board : Board) (f t : Square) :
    straightBlocked board f t = false ↔
      ∀ sq ∈ betweenSquares f t, board sq = none := by
  unfold straightBlocked betweenSquares
  by_cases h1 : f.1 = t.1
  · simp only [if_pos h1, Bool.not_eq_false', List.all_eq_true]
    constructor
    · intro H sq hsq
      rcases List.mem_map.mp hsq with ⟨i, hi, rfl⟩
      simpa using H i hi
    · intro H i hi
      simpa using H (f.1, i) (List.mem_map.mpr ⟨i, hi, rfl⟩)
  · simp only [if_neg h1]
    by_cases h2 : f.2 = t.2
    · simp only [if_pos h2, Bool.not_eq_false', List.all_eq_true]
      constructor
      · intro H sq hsq
        rcases List.mem_map.mp hsq with ⟨i, hi, rfl⟩
        simpa using H i hi
      · intro H i hi
        simpa using H (i, f.2) (List.mem_map.mpr ⟨i, hi, rfl⟩)
    · simp only [if_neg h2]
      simp

/-- C6 (amended): for a rook, the pseudo-legality check returns true iff
the two squares share a file or a rank AND every square strictly between
them is empty — with NO exclusion of the degenerate case `from = to`
(which satisfies both conditions vacuously and is accepted by the
source; in play it is masked by the cancel branch and the friendly-fire
filter, not by the pattern check). -/
theorem c6_rook_pseudo_legal_iff (board : Board) (c : Color) (f t : Square)
    (hf : board f = some ⟨c, PieceKind.rook⟩) :
    allowed_piece_move board f t = some true ↔
      ((f.1 = t.1 ∨ f.2 = t.2) ∧ ∀ sq ∈ betweenSquares f t, board sq = none) := by
  unfold allowed_piece_move
  rw [hf]
  simp only [Option.some.injEq, Bool.and_eq_true, Bool.or_eq_true, beq_iff_eq,
    Bool.not_eq_true']
  rw [straightBlocked_eq_false_iff]
  exact and_congr or_comm Iff.rfl

/-- C6 witness: for the a1 rook toward a4, the check is equivalent to the
pattern-and-clear-path condition (both sides false here: a2 blocks). -/
theorem c6_rook_pseudo_legal_iff_witness :
    allowed_piece_move init_board ((0 : Nat), (0 : Nat)) ((0 : Nat), (3 : Nat)) =
        some true ↔
      (((0 : Nat) = (0 : Nat) ∨ (0 : Nat) = (3 : Nat)) ∧
        ∀ sq ∈ betweenSquares ((0 : Nat), (0 : Nat)) ((0 : Nat), (3 : Nat)),
          init_board sq = none) :=
  c6_rook_pseudo_legal_iff init_board Color.white ((0 : Nat), (0 : Nat))
    ((0 : Nat), (3 : Nat)) rfl

/-- Python `abs(a - b) == 1` in terms of the two adjacency cases. -/
theorem fdiff_eq_one_iff (a b : Nat) : fdiff a b = 1 ↔ (a = b + 1 ∨ b = a + 1) := by
  unfold fdiff
  rcases Nat.le_total a b with h | h
  · rw [Nat.max_eq_right h, Nat.min_eq_left h]; omega
  · rw [Nat.max_eq_left h, Nat.min_eq_right h]; omega

/-- Membership of a colored piece behind `Option.any`. -/
theorem option_any_color (o : Option Piece) (c : Color) :
    (o.any (fun p => p.color == c)) = true ↔ ∃ p, o = some p ∧ p.color = c := by
  cases o <;> simp [Option.any]

/-- The source's white-pawn clauses are equivalent to the three spec
cases (the rank-2 block with a rank-3 target duplicates the single-push
clause; with a rank-4 target it is exactly the double push). -/
theorem white_pawn_move_iff (board : Board) (f t : Square) :
    white_pawn_move board f t = true ↔
      (specWhiteSinglePush board f t ∨ specWhiteDoublePush board f t ∨
        specWhiteCapture board f t) := by
  obtain ⟨f1, f2⟩ := f
  obtain ⟨t1, t2⟩ := t
  unfold white_pawn_move specWhiteSinglePush specWhiteDoublePush specWhiteCapture
  by_cases ht3 : t2 = 3
  · subst ht3
    simp only [Bool.or_eq_true, Bool.and_eq_true, beq_iff_eq,
      Option.isNone_iff_eq_none, option_any_color, fdiff_eq_one_iff,
      or_true, and_true, if_true, true_and]
    constructor
    · rintro ((⟨⟨⟨h1, h2⟩, h3⟩, h4⟩ | ⟨⟨h1, h2⟩, h3⟩) | ⟨⟨h1, h2⟩, h3⟩)
      · exact Or.inr (Or.inl ⟨h1, h2.symm, h4, by rw [h2]; exact h3⟩)
      · exact Or.inl ⟨h2.symm, h1, h3⟩
      · exact Or.inr (Or.inr ⟨h1, h2.symm, h3⟩)
    · rintro (⟨h1, h2, h3⟩ | ⟨h1, h2, h3, h4⟩ | ⟨h1, h2, h3⟩)
      · exact Or.inl (Or.inr ⟨⟨h2, h1.symm⟩, h3⟩)
      · exact Or.inl (Or.inl ⟨⟨⟨h1, h2.symm⟩, by rw [h2]; exact h4⟩, h3⟩)
      · exact Or.inr ⟨⟨h1, h2.symm⟩, h3⟩
  · simp only [Bool.or_eq_true, Bool.and_eq_true, beq_iff_eq,
      Option.isNone_iff_eq_none, option_any_color, fdiff_eq_one_iff,
      if_neg ht3, and_true]
    constructor
    · rintro ((⟨⟨⟨h1, h2⟩, h3⟩, h4⟩ | ⟨⟨h1, h2⟩, h3⟩) | ⟨⟨h1, h2⟩, h3⟩)
      · rcases h2 with h2 | h2
        · exact Or.inl ⟨h3.symm, by omega, h4⟩
        · exact absurd h2 ht3
      · exact Or.inl ⟨h2.symm, h1, h3⟩
      · exact Or.inr (Or.inr ⟨h1, h2.symm, h3⟩)
    · rintro (⟨h1, h2, h3⟩ | ⟨h1, h2, h3, h4⟩ | ⟨h1, h2, h3⟩)
      · exact Or.inl (Or.inr ⟨⟨h2, h1.symm⟩, h3⟩)
      · exact absurd h2 ht3
      · exact Or.inr ⟨⟨h1, h2.symm⟩, h3⟩

/-- C7: for a White pawn the pseudo-legality check returns true iff
exactly one of the spec's three cases holds — single push, double push,
or diagonal capture onto a Black piece — the three cases being pairwise
exclusive (so a forward push onto an occupied square is never legal:
both push cases require the destination to be empty). -/
theorem c7_white_pawn_pseudo_legal_iff (board : Board) (f t : Square)
    (hf : board f = some ⟨Color.white, PieceKind.pawn⟩) :
    (allowed_piece_move board f t = some true ↔
      (specWhiteSinglePush board f t ∨ specWhiteDoublePush board f t ∨
        specWhiteCapture board f t)) ∧
    ¬(specWhiteSinglePush board f t ∧ specWhiteDoublePush board f t) ∧
    ¬(specWhiteSinglePush board f t ∧ specWhiteCapture board f t) ∧
    ¬(specWhiteDoublePush board f t ∧ specWhiteCapture board f t) := by
  refine ⟨?_, ?_, ?_, ?_⟩
  · have hkey : allowed_piece_move board f t = some (white_pawn_move board f t) := by
      unfold allowed_piece_move
      rw [hf]
    rw [hkey, Option.some_inj]
    exact white_pawn_move_iff board f t
  · rintro ⟨⟨_, h2, _⟩, ⟨h4, h5, _⟩⟩
    omega
  · rintro ⟨⟨_, _, h3⟩, ⟨_, _, p, hp, _⟩⟩
    rw [h3] at hp
    cases hp
  · rintro ⟨⟨h1, h2, _, _, _⟩, ⟨h6, _, _⟩⟩
    omega

/-- C7 witness: the double push e2–e4 on the initial board instantiates
the equivalence and the exclusivity facts. -/
theorem c7_white_pawn_pseudo_legal_iff_witness :
    (allowed_piece_move init_board ((4 : Nat), (1 : Nat)) ((4 : Nat), (3 : Nat)) =
        some true ↔
      (specWhiteSinglePush init_board ((4 : Nat), (1 : Nat)) ((4 : Nat), (3 : Nat)) ∨
       specWhiteDoublePush init_board ((4 : Nat), (1 : Nat)) ((4 : Nat), (3 : Nat)) ∨
       specWhiteCapture init_board ((4 : Nat), (1 : Nat)) ((4 : Nat), (3 : Nat)))) ∧
    ¬(specWhiteSinglePush init_board ((4 : Nat), (1 : Nat)) ((4 : Nat), (3 : Nat)) ∧
      specWhiteDoublePush init_board ((4 : Nat), (1 : Nat)) ((4 : Nat), (3 : Nat))) ∧
    ¬(specWhiteSinglePush init_board ((4 : Nat), (1 : Nat)) ((4 : Nat), (3 : Nat)) ∧
      specWhiteCapture init_board ((4 : Nat), (1 : Nat)) ((4 : Nat), (3 : Nat))) ∧
    ¬(specWhiteDoublePush init_board ((4 : Nat), (1 : Nat)) ((4 : Nat), (3 : Nat)) ∧
      specWhiteCapture init_board ((4 : Nat), (1 : Nat)) ((4 : Nat), (3 : Nat))) :=
  c7_white_pawn_pseudo_legal_iff init_board ((4 : Nat), (1 : Nat))
    ((4 : Nat), (3 : Nat)) rfl

/-- Unfolding the scan on the empty list. -/
theorem check_scan_nil (board : Board) (c : Color) (kingSq : Option Square) :
    check_scan board c kingSq [] = some none := rfl

/-- Unfolding one step of the scan when the king was found. -/
theorem check_scan_cons_some (board : Board) (c : Color) (ks : Square)
    (sq : Square) (rest : List Square) :
    check_scan board c (some ks) (sq :: rest) =
      match board sq with
      | some p =>
        if p.color = c then check_scan board c (some ks) rest
        else
          match allowed_piece_move board sq ks with
          | none => none
          | some true => some (some sq)
          | some false => check_scan board c (some ks) rest
      | none => check_scan board c (some ks) rest := rfl

/-- When the scan over a square list returns normally, it found an
attacker exactly when some listed square holds an enemy piece whose
pseudo-legality check toward the king square returns true. -/
theorem check_scan_some_iff (board : Board) (c : Color) (ks : Square)
    (l : List Square) (r : Option Square)
    (h : check_scan board c (some ks) l = some r) :
    r.isSome = true ↔ ∃ sq ∈ l, (∃ p, board sq = some p ∧ p.color ≠ c) ∧
      allowed_piece_move board sq ks = some true := by
  induction l generalizing r with
  | nil =>
    rw [check_scan_nil] at h
    injection h with h1
    subst h1
    simp
  | cons sq rest ih =>
    rw [check_scan_cons_some] at h
    split at h
    case h_1 p hp =>
      split at h
      case isTrue hpc =>
        rw [ih r h]
        simp only [List.mem_cons]
        constructor
        · rintro ⟨x, hx, hcond⟩
          exact ⟨x, Or.inr hx, hcond⟩
        · rintro ⟨x, hx | hx, hcond⟩
          · subst hx
            rcases hcond with ⟨⟨q, hq, hqc⟩, -⟩
            rw [hp] at hq
            injection hq with hq2
            subst hq2
            exact absurd hpc hqc
          · exact ⟨x, hx, hcond⟩
      case isFalse hpc =>
        split at h
        · exact Option.noConfusion h
        case h_2 halw =>
          injection h with h1
          subst h1
          simp only [Option.isSome_some, true_iff]
          exact ⟨sq, List.mem_cons_self sq rest, ⟨p, hp, hpc⟩, halw⟩
        case h_3 halw =>
          rw [ih r h]
          simp only [List.mem_cons]
          constructor
          · rintro ⟨x, hx, hcond⟩
            exact ⟨x, Or.inr hx, hcond⟩
          · rintro ⟨x, hx | hx, hcond⟩
            · subst hx
              rcases hcond with ⟨-, hcond2⟩
              rw [halw] at hcond2
              injection hcond2 with hcond3
              exact Bool.noConfusion hcond3
            · exact ⟨x, hx, hcond⟩
    case h_2 hp =>
      rw [ih r h]
      simp only [List.mem_cons]
      constructor
      · rintro ⟨x, hx, hcond⟩
        exact ⟨x, Or.inr hx, hcond⟩
      · rintro ⟨x, hx | hx, hcond⟩
        · subst hx
          rcases hcond with ⟨⟨q, hq, -⟩, -⟩
          rw [hp] at hq
          exact Option.noConfusion hq
        · exact ⟨x, hx, hcond⟩

/-- C8 (amended): whenever `in_check` RETURNS A VALUE (it can instead
raise `KeyError`, see the counterexample), it returns true iff some
square holding a piece of the opposite color passes the same
`allowed_piece_move` pattern/path-clearance engine toward the king's
square.  The hypothesis `hk` says the board contains a king of color `c`
(the first one in scan order is at `ks`). -/
theorem c8_in_check_iff_attacker (board : Board) (c : Color) (ks : Square)
    (b : Bool)
    (hk : find_king board ⟨c, PieceKind.king⟩ = some ks)
    (h : in_check board (some c) = some b) :
    (b = true ↔ ∃ sq ∈ squaresList, (∃ p, board sq = some p ∧ p.color ≠ c) ∧
      allowed_piece_move board sq ks = some true) := by
  have h2 : (match check_scan board c (some ks) squaresList with
      | none => none
      | some r => some (Option.isSome r)) = some b := by
    rw [← hk]
    exact h
  split at h2
  · exact Option.noConfusion h2
  case h_2 r heq =>
    injection h2 with h1
    subst h1
    exact check_scan_some_iff board c ks squaresList r heq

/-- C8 witness: on the initial board the scan completes, White's king is
on e1, and `in_check` is false exactly because no Black piece reaches e1. -/
theorem c8_in_check_iff_attacker_witness :
    (false = true ↔ ∃ sq ∈ squaresList,
      (∃ p, init_board sq = some p ∧ p.color ≠ Color.white) ∧
      allowed_piece_move init_board sq ((4 : Nat), (0 : Nat)) = some true) :=
  c8_in_check_iff_attacker init_board Color.white ((4 : Nat), (0 : Nat)) false
    (by decide) (by decide)
